import Mathlib

/-!
Verification development for the Survey Data Dashboard repository
(`src/main.py` and `src/surveyor_profile.py`).

The two pages load spreadsheet rows into a table, normalize a few typed
columns (submission timestamp, GPS coordinates, verification flag), filter
the rows, aggregate them for charts, plot them on a map and append
free-text notes to a CSV log.  Below, each relevant source function is
shallowly embedded as an executable Lean definition and the spec claims
about it are proved or refuted.

Cell values: a spreadsheet cell is either missing (`pandas` NA, embedded
as `none`) or holds a string or a numeric value (embedded as `ℚ`;
the floating point values of the source are idealized as rationals).
-/

/-- A concrete spreadsheet value: a string or a number. -/

inductive Val where
  | str : String → Val
  | num : ℚ → Val
deriving DecidableEq, Repr

/-- A cell of the table: `none` is pandas NA ("absent"). -/

abbrev Cell := Option Val

/-- One row of the combined table, with the typed fields the claims are
about.  `submissionDate` is the result of `pd.to_datetime(..., errors="coerce")`:
`none` when missing or unparseable, otherwise seconds since the epoch.
`g1lat`/`g1lon` are the primary coordinate columns `Geopoint1-Latitude` /
`Geopoint1-Longitude`; `gplat`/`gplon` are the fallback columns
`geopoint-Latitude` / `geopoint-Longitude`; `ev` is the raw
`external_verification` cell. -/

structure Row where
  key : Cell
  surveyor : Cell
  submissionDate : Option Int
  g1lat : Cell
  g1lon : Cell
  gplat : Cell
  gplon : Cell
  ev : Cell
deriving DecidableEq, Repr

/-- Embedding of `pick_lat` (src/main.py lines 76-81): prefer the primary
`Geopoint1` pair when both coordinates are non-NA, else the fallback
`geopoint` pair when both are non-NA, else `(NA, NA)`. -/

def pick_lat (r : Row) : Cell × Cell :=
  if r.g1lat.isSome ∧ r.g1lon.isSome then (r.g1lat, r.g1lon)
  else if r.gplat.isSome ∧ r.gplon.isSome then (r.gplat, r.gplon)
  else (none, none)

/-- The resolved `lat` column added to the combined table (src/main.py line 84). -/

def resolvedLat (r : Row) : Cell := (pick_lat r).1

/-- The resolved `lon` column added to the combined table (src/main.py line 84). -/

def resolvedLon (r : Row) : Cell := (pick_lat r).2

/-- Model of pandas `.dt.date` on a timestamp in seconds: the calendar day,
i.e. floor division by 86400. -/

def dateOnly (t : Int) : Int := Int.fdiv t 86400

/-- The row predicate of the date-range filter (src/main.py lines 137-140):
keep a row when its `SubmissionDate` is NA, or when its date lies in the
inclusive range `[s, e]`. -/

def dateKeep (s e : Int) (r : Row) : Bool :=
  match r.submissionDate with
  | none => true
  | some t => decide (s ≤ dateOnly t) && decide (dateOnly t ≤ e)

/-- Embedding of the date-range filtering step (src/main.py lines 134-140). -/

def dateFilter (s e : Int) (rows : List Row) : List Row :=
  rows.filter (dateKeep s e)

/-- Round-half-to-even on rationals, the idealization of Python `round`
applied to a value scaled to an integer. -/

def roundHalfEven (q : ℚ) : Int :=
  let f : Int := ⌊q⌋
  let frac : ℚ := q - f
  if frac < 1/2 then f
  else if 1/2 < frac then f + 1
  else if f % 2 = 0 then f else f + 1

/-- Python `round(x, 1)`: round to one decimal place. -/

def roundTo1 (q : ℚ) : ℚ := (roundHalfEven (10 * q) : ℚ) / 10

/-- Embedding of `percent` (src/main.py lines 104-105):
`round(100 * (part / whole), 1) if whole else 0.0`. -/

def percent (part whole : ℚ) : ℚ :=
  if whole ≠ 0 then roundTo1 (100 * (part / whole)) else 0

/-- Embedding of the `pct_verified` expression of src/surveyor_profile.py
line 29: `round((verified / total) * 100, 1) if total > 0 else 0`. -/

def pct_verified (verified total : ℚ) : ℚ :=
  if 0 < total then roundTo1 ((verified / total) * 100) else 0

/-- One data row of the notes CSV log `surveyor_notes.csv`
(src/surveyor_profile.py lines 130-136). -/

structure NoteRow where
  surveyorName : String
  timestamp : String
  note : String
deriving DecidableEq, Repr

/-- The header row `to_csv` writes when the file does not exist yet. -/

def notesHeader : NoteRow := ⟨"Surveyor_Name", "Timestamp", "Notes"⟩

/-- Python `str.strip()`: remove leading and trailing whitespace. -/

def pyStrip (s : String) : String :=
  String.mk (((s.toList.dropWhile Char.isWhitespace).reverse.dropWhile
    Char.isWhitespace).reverse)

/-- Embedding of the Save Notes handler (src/surveyor_profile.py lines
128-137).  The log file is `none` when it does not exist, otherwise the
list of its rows.  A note whose stripped text is empty is discarded
(Python falsy string `if notes.strip()`), otherwise one row
`(surveyor, timestamp, note)` is appended in mode `"a"`, with the
header written first iff the file did not exist
(`header=not file_exists`). -/

def saveNotes (file : Option (List NoteRow)) (surveyor timestamp note : String) :
    Option (List NoteRow) :=
  if pyStrip note = "" then file
  else
    match file with
    | none => some [notesHeader, ⟨surveyor, timestamp, note⟩]
    | some rows => some (rows ++ [⟨surveyor, timestamp, note⟩])

/-- A sample row with both coordinate pairs fully present: the primary
pair wins. -/

def rowPrimAndFall : Row :=
  ⟨none, none, none, some (Val.num 1), some (Val.num 2),
    some (Val.num 3), some (Val.num 4), none⟩

/-- A sample row whose timestamp falls on day 0. -/

def rowDayZero : Row :=
  ⟨none, none, some 3600, none, none, none, none, none⟩

/-- The map-point predicate of the combined dashboard (src/main.py lines
197-198): keep a row when both resolved coordinates are non-NA. -/

def mapKeep (r : Row) : Bool :=
  (resolvedLat r).isSome && (resolvedLon r).isSome

/-- Embedding of `map_df` (src/main.py lines 197-198): the rows of the
filtered table that are plotted on the map. -/

def map_df (rows : List Row) : List Row := rows.filter mapKeep

/-- Does a cell hold the numeric value 0?  (`pandas` `series != 0` is
false exactly on numeric zeros; strings and NA compare unequal to 0.) -/

def cellIsZero : Cell → Bool
  | some (Val.num q) => decide (q = 0)
  | _ => false

/-- The combined plotting predicate of the surveyor-profile page: both
primary coordinates non-NA and neither equal to 0. -/

def gpsKeep (r : Row) : Bool :=
  (r.g1lat.isSome && r.g1lon.isSome) &&
    (!cellIsZero r.g1lat && !cellIsZero r.g1lon)

/-- Embedding of `gps_df` (src/surveyor_profile.py lines 79-83):
`dropna` on the two primary coordinate columns, then exclusion of rows
whose primary latitude or longitude equals 0.  The fallback columns are
never consulted. -/

def gps_df (rows : List Row) : List Row :=
  (rows.filter (fun r => r.g1lat.isSome && r.g1lon.isSome)).filter
    (fun r => !cellIsZero r.g1lat && !cellIsZero r.g1lon)

/-- A row with no primary coordinates and a full fallback pair: its
resolved coordinates are present, yet the surveyor-profile map drops it. -/

def rowFallbackOnly : Row :=
  ⟨none, none, none, none, none, some (Val.num 10), some (Val.num 20), none⟩

/-- A row with a zero primary latitude: present but excluded. -/

def rowZeroLat : Row :=
  ⟨none, none, none, some (Val.num 0), some (Val.num 5), none, none, none⟩

/-- Number of occurrences of the flag value `v` in the filtered set. -/

def countVal (flags : List Int) (v : Int) : Nat :=
  (flags.filter (fun x => x == v)).length

/-- The distinct flag values of the filtered set, in first-appearance
order. -/

def distinctVals (flags : List Int) : List Int :=
  flags.foldl (fun acc v => if v ∈ acc then acc else acc ++ [v]) []

/-- Model of pandas `value_counts`: one entry per distinct value of the column,
with its number of occurrences. -/

def valueCounts (flags : List Int) : List (Int × Nat) :=
  (distinctVals flags).map (fun v => (v, countVal flags v))

/-- Insertion step for sorting the breakdown by flag value. -/

def insertByFst (p : Int × Nat) : List (Int × Nat) → List (Int × Nat)
  | [] => [p]
  | q :: t => if p.1 ≤ q.1 then p :: q :: t else q :: insertByFst p t

/-- Model of `sort_values("verified")`: sort the breakdown by flag value. -/

def sortPairsByFst (l : List (Int × Nat)) : List (Int × Nat) :=
  l.foldr insertByFst []

/-- Embedding of `verif_counts` (src/main.py lines 169-175): the
`value_counts` of the filtered `external_verification` column, with a
zero-count entry appended for 0 and for 1 when missing, sorted by flag
value. -/

def verif_counts (flags : List Int) : List (Int × Nat) :=
  let vc := valueCounts flags
  let vc2 := if vc.any (fun p => p.1 == 0) then vc else vc ++ [(0, 0)]
  let vc3 := if vc2.any (fun p => p.1 == 1) then vc2 else vc2 ++ [(1, 0)]
  sortPairsByFst vc3

/-- The `rename` mapping of src/surveyor_profile.py lines 47-50: flag 1
becomes "Externally Verified", flag 0 becomes "Verified through
Beneficiary", other index values keep their printed form. -/

def renameVerifLabel (v : Int) : String :=
  if v == 1 then "Externally Verified"
  else if v == 0 then "Verified through Beneficiary"
  else toString v

/-- Embedding of `verified_counts` (src/surveyor_profile.py lines 47-50):
`value_counts` renamed by `renameVerifLabel`, then `reindex` on the two
labels "Externally Verified" and "Verified by Respondent" with
`fill_value=0` (a label not found in the renamed index gets count 0). -/

def verified_counts (flags : List Int) : List (String × Nat) :=
  let renamed := (valueCounts flags).map (fun p => (renameVerifLabel p.1, p.2))
  ["Externally Verified", "Verified by Respondent"].map
    (fun lbl => (lbl, ((renamed.find? (fun p => p.1 == lbl)).map Prod.snd).getD 0))

/-- The natural number denoted by a list of decimal digits. -/

def natOfDigits (l : List Char) : Nat :=
  l.foldl (fun n c => n * 10 + (c.toNat - 48)) 0

/-- Model of numeric-string parsing as performed by
`pd.to_numeric(..., errors="coerce")`: optional sign, then digits with an
optional decimal fraction; anything else is unparseable (`none`). -/

def parseDecimalString (s : String) : Option ℚ :=
  let cs := (pyStrip s).toList
  let sgn : ℚ := match cs with
    | '-' :: _ => -1
    | _ => 1
  let body : List Char := match cs with
    | '-' :: r => r
    | '+' :: r => r
    | r => r
  let intPart := body.takeWhile Char.isDigit
  let rest := body.dropWhile Char.isDigit
  match rest with
  | [] => if intPart.isEmpty then none else some (sgn * (natOfDigits intPart : ℚ))
  | '.' :: fr =>
      if fr.all Char.isDigit && !(intPart.isEmpty && fr.isEmpty) then
        some (sgn * ((natOfDigits intPart : ℚ) +
          (natOfDigits fr : ℚ) / ((10 : ℚ) ^ fr.length)))
      else none
  | _ => none

/-- Model of `pd.to_numeric(..., errors="coerce")` on one cell: numbers pass
through, numeric strings parse, everything else (including NA) coerces
to NA. -/

def parseNumeric (c : Cell) : Option ℚ :=
  match c with
  | none => none
  | some (Val.num q) => some q
  | some (Val.str s) => parseDecimalString s

/-- Model of `astype(int)`: truncation of a rational toward zero (the rational is
stored reduced, so this is T-division of numerator by denominator). -/

def truncQ (q : ℚ) : Int := Int.tdiv q.num (q.den : Int)

/-- Embedding of the flag normalization of src/main.py line 89:
`pd.to_numeric(col, errors="coerce").fillna(0).astype(int)`. -/

def normalizeFlag (c : Cell) : Int :=
  match parseNumeric c with
  | none => 0
  | some q => truncQ q

/-- The normalized `external_verification` column. -/

def normalizeFlagCol (col : List Cell) : List Int := col.map normalizeFlag

/-- Model of `Series.sum()` over the normalized integer column
(src/main.py line 144). -/

def verifiedSum (flags : List Int) : Int := flags.sum

/-- One step of `Series.sum()` over a raw object column: NA cells are
skipped, numeric cells are added, a string cell makes the whole sum
raise (`TypeError`). -/

def rawSumStep (acc : Except String ℚ) (c : Cell) : Except String ℚ :=
  match acc, c with
  | Except.error e, _ => Except.error e
  | Except.ok a, none => Except.ok a
  | Except.ok a, some (Val.num q) => Except.ok (a + q)
  | Except.ok _, some (Val.str _) => Except.error "TypeError"

/-- Embedding of `verified = filtered["external_verification"].sum()`
(src/surveyor_profile.py line 28): the column is summed RAW, with no
prior coercion, so a non-numeric cell makes it fail. -/

def rawVerifiedSum (cells : List Cell) : Except String ℚ :=
  cells.foldl rawSumStep (Except.ok 0)

/-- A cell holding the integer `n` as a number. -/

def intCell (n : Int) : Cell := some (Val.num (n : ℚ))

/-- A row of a source table: an association list from column name to cell. -/

abbrev DFRow := List (String × Cell)

/-- A source table: named columns, and rows binding exactly those columns. -/

structure DF where
  cols : List String
  rows : List DFRow
deriving DecidableEq, Repr

/-- Well-formedness: every row binds exactly the table's columns, in order
(as in a pandas DataFrame, where a cell exists iff its column does). -/

def DFWF (d : DF) : Prop := ∀ r ∈ d.rows, r.map Prod.fst = d.cols

/-- The cell bound to column `c` in row `r`: `none` when the column is
not bound at all (distinct from `some none`, a bound NA cell). -/

def lookupCell (r : DFRow) (c : String) : Option Cell :=
  (r.find? (fun p => p.1 == c)).map Prod.snd

/-- One iteration of the alignment loop (src/main.py lines 62-64):
`if col not in df.columns: df[col] = pd.NA`. -/

def ensureCol (d : DF) (c : String) : DF :=
  if c ∈ d.cols then d
  else ⟨d.cols ++ [c], d.rows.map (fun r => r ++ [(c, (none : Cell))])⟩

/-- The fixed expected column set `KEY_COLUMNS` (src/main.py lines 11-36). -/

def KEY_COLUMNS : List String :=
  ["KEY", "review_status", "surveyor_comments",
   "door_tag_photo_directly_from_the_door_tag",
   "door_tag_photo_of_the_door_from_an_angle", "TA", "AA",
   "SubmissionDate", "Geopoint1-Latitude", "Geopoint1-Longitude",
   "geopoint-Latitude", "geopoint-Longitude", "Surveyor_Id",
   "Surveyor_Name", "Province", "District", "Village", "benef_name_full",
   "external_verification", "name_community_elder",
   "phonenumber_community_elder", "community_elder_verification",
   "community_elder_verification_photo"]

/-- The alignment loop of src/main.py lines 62-64 over all expected
columns. -/

def addMissingKeyCols (d : DF) : DF := KEY_COLUMNS.foldl ensureCol d

/-- Assignment `df[c] = v` for a scalar `v`: overwrite the column when present,
append it otherwise (used for `__source_file`, src/main.py line 65). -/

def setCol (d : DF) (c : String) (v : Cell) : DF :=
  if c ∈ d.cols then
    ⟨d.cols, d.rows.map (List.map (fun p => if p.1 == c then (p.1, v) else p))⟩
  else ⟨d.cols ++ [c], d.rows.map (fun r => r ++ [(c, v)])⟩

/-- Add the names of `cs` not yet in `acc` to its end, in order. -/

def insertCols (acc : List String) (cs : List String) : List String :=
  cs.foldl (fun a c => if c ∈ a then a else a ++ [c]) acc

/-- The column union produced by `pd.concat(..., sort=False)`: columns in
order of first appearance across the concatenated tables. -/

def unionCols (dfs : List DF) : List String :=
  dfs.foldl (fun acc d => insertCols acc d.cols) []

/-- Reindex one row to the full column list, filling columns the row does
not bind with NA. -/

def reindexRow (cols : List String) (r : DFRow) : DFRow :=
  cols.map (fun c => (c, (lookupCell r c).getD none))

/-- Model of `pd.concat(dfs, ignore_index=True, sort=False)`: union the columns,
keep every row of every table in order, reindexed to the union. -/

def concatDFs (dfs : List DF) : DF :=
  ⟨unionCols dfs, (dfs.map (fun d => d.rows.map (reindexRow (unionCols dfs)))).flatten⟩

/-- Embedding of the alignment-and-concatenation stage of
`load_and_combine_excel_files` (src/main.py lines 49-69): each readable
file's table gets all missing `KEY_COLUMNS` added as NA and a
`__source_file` column, and the results are concatenated; with no
readable file the result is an empty table with the expected columns. -/

def load_and_combine (files : List (String × DF)) : DF :=
  if files.isEmpty then ⟨KEY_COLUMNS ++ ["__source_file"], []⟩
  else
    concatDFs (files.map (fun f =>
      setCol (addMissingKeyCols f.2) "__source_file" (some (Val.str f.1))))

/-- A one-column, one-row source table: only "KEY" is present, the other
22 expected columns are missing. -/

def dfEx : DF := ⟨["KEY"], [[("KEY", some (Val.str "k1"))]]⟩

/-- A multi-file ingestion consisting of the single file `a.xlsx`. -/

def filesEx : List (String × DF) := [("a.xlsx", dfEx)]

/-- The single row of `dfEx` after the alignment loop. -/

def alignedRowEx : DFRow := (addMissingKeyCols dfEx).rows.headD []

/-- Rounding an integer value leaves it unchanged. -/
lemma roundHalfEven_intCast (n : Int) : roundHalfEven (n : ℚ) = n := by
  unfold roundHalfEven
  norm_num

/-- Evaluation of `roundTo1` on a value that is an integer number of tenths. -/
lemma roundTo1_eq_of_tenths (q : ℚ) (n : Int) (h : 10 * q = (n : ℚ)) :
    roundTo1 q = (n : ℚ) / 10 := by
  unfold roundTo1
  rw [h, roundHalfEven_intCast]

/-- C1: For every row of the combined table, if both primary coordinates
(`Geopoint1-Latitude`, `Geopoint1-Longitude`) are non-missing, the resolved
pair equals the primary pair regardless of the fallback values; otherwise,
if both fallback coordinates are non-missing, the resolved pair equals the
fallback pair; otherwise both resolved coordinates are absent.  The
resolved pair is never a mix of one coordinate from each source. -/
theorem pick_lat_two_tier_fallback (r : Row) :
    (r.g1lat.isSome → r.g1lon.isSome → pick_lat r = (r.g1lat, r.g1lon)) ∧
    (¬ (r.g1lat.isSome ∧ r.g1lon.isSome) →
      (r.gplat.isSome → r.gplon.isSome → pick_lat r = (r.gplat, r.gplon)) ∧
      (¬ (r.gplat.isSome ∧ r.gplon.isSome) → pick_lat r = (none, none))) ∧
    (pick_lat r = (r.g1lat, r.g1lon) ∨ pick_lat r = (r.gplat, r.gplon) ∨
      pick_lat r = (none, none)) := by
  unfold pick_lat
  by_cases h1 : r.g1lat.isSome ∧ r.g1lon.isSome <;>
    by_cases h2 : r.gplat.isSome ∧ r.gplon.isSome <;>
      simp [h1, h2] <;> tauto

/-- Witness for C1 at a concrete row carrying both pairs. -/
theorem pick_lat_two_tier_fallback_witness :
    pick_lat rowPrimAndFall = (some (Val.num 1), some (Val.num 2)) :=
  (pick_lat_two_tier_fallback rowPrimAndFall).1 rfl rfl

/-- C4: For any chosen inclusive date range `[s, e]`, the date-range
filter (src/main.py lines 134-140) retains every row whose submission
timestamp is absent; excludes every row whose timestamp's date is
strictly before `s` or strictly after `e`; and retains every row whose
timestamp's date equals `s` or equals `e`. -/
theorem dateFilter_inclusive_bounds (s e : Int) (hse : s ≤ e)
    (rows : List Row) (r : Row) (hr : r ∈ rows) :
    (r.submissionDate = none → r ∈ dateFilter s e rows) ∧
    (∀ t, r.submissionDate = some t →
      ((dateOnly t < s ∨ e < dateOnly t) → r ∉ dateFilter s e rows) ∧
      ((dateOnly t = s ∨ dateOnly t = e) → r ∈ dateFilter s e rows)) := by
  constructor
  · intro h
    rw [dateFilter, List.mem_filter]
    exact ⟨hr, by simp [dateKeep, h]⟩
  · intro t ht
    constructor
    · intro hout hmem
      rw [dateFilter, List.mem_filter] at hmem
      have hk := hmem.2
      simp [dateKeep, ht] at hk
      omega
    · intro hb
      rw [dateFilter, List.mem_filter]
      refine ⟨hr, ?_⟩
      simp [dateKeep, ht]
      omega

/-- Witness for C4: a row whose date equals the start bound of the range
`[0, 1]` is retained. -/
theorem dateFilter_inclusive_bounds_witness :
    rowDayZero ∈ dateFilter 0 1 [rowDayZero] :=
  ((dateFilter_inclusive_bounds 0 1 (by norm_num) [rowDayZero] rowDayZero
    (by simp)).2 3600 rfl).2 (Or.inl (by decide))

/-- C5: The verification percentage function returns the part divided by
the whole times 100, rounded to one decimal place, and returns 0.0
whenever the whole is zero (never a division error); in particular
`percent 0 0 = 0.0`, `percent 1 4 = 25.0` and `percent 3 3 = 100.0`.
The per-surveyor variant `pct_verified` obeys the same contract. -/
theorem percent_spec :
    percent 0 0 = 0 ∧ percent 1 4 = 25 ∧ percent 3 3 = 100 ∧
    (∀ p : ℚ, percent p 0 = 0) ∧
    (∀ p w : ℚ, w ≠ 0 → percent p w = roundTo1 (100 * (p / w))) ∧
    pct_verified 0 0 = 0 ∧
    (∀ v t : ℚ, 0 < t → pct_verified v t = roundTo1 ((v / t) * 100)) := by
  refine ⟨?_, ?_, ?_, ?_, ?_, ?_, ?_⟩
  · simp [percent]
  · rw [percent, if_pos (by norm_num), roundTo1_eq_of_tenths _ 250 (by norm_num)]
    norm_num
  · rw [percent, if_pos (by norm_num), roundTo1_eq_of_tenths _ 1000 (by norm_num)]
    norm_num
  · intro p; simp [percent]
  · intro p w hw; rw [percent, if_pos hw]
  · simp [pct_verified]
  · intro v t ht; rw [pct_verified, if_pos ht]

/-- Witness for C5 at the concrete inputs named by the spec. -/
theorem percent_spec_witness :
    percent 1 4 = 25 ∧ percent 17 0 = 0 :=
  ⟨percent_spec.2.1, percent_spec.2.2.2.1 17⟩

/-- C6: Saving a non-empty note appends exactly one row (surveyor name,
timestamp, note text) to the notes log, leaving every previously written
row unchanged and in its original order, and writes the header row iff
the log file did not already exist. -/
theorem saveNotes_appends_one_row (rows : List NoteRow) (s t n : String)
    (h : pyStrip n ≠ "") :
    saveNotes (some rows) s t n = some (rows ++ [⟨s, t, n⟩]) ∧
    saveNotes none s t n = some [notesHeader, ⟨s, t, n⟩] := by
  constructor <;> simp [saveNotes, h]

/-- Witness for C6: appending the note "looks good" to a one-row log. -/
theorem saveNotes_appends_one_row_witness :
    saveNotes (some [⟨"A", "t0", "first"⟩]) "A" "t1" "looks good" =
      some [⟨"A", "t0", "first"⟩, ⟨"A", "t1", "looks good"⟩] ∧
    saveNotes none "A" "t1" "looks good" =
      some [notesHeader, ⟨"A", "t1", "looks good"⟩] :=
  saveNotes_appends_one_row [⟨"A", "t0", "first"⟩] "A" "t1" "looks good"
    (by decide)

/-- C7: Saving a note whose text is empty or consists only of whitespace
performs no write: the log is unchanged if it existed and is not created
if it did not exist. -/
theorem saveNotes_blank_no_write (file : Option (List NoteRow))
    (s t n : String) (h : pyStrip n = "") :
    saveNotes file s t n = file := by
  simp [saveNotes, h]

/-- Witness for C7: a whitespace-only note against a missing log file. -/
theorem saveNotes_blank_no_write_witness :
    saveNotes none "A" "t1" "   " = none :=
  saveNotes_blank_no_write none "A" "t1" "   " (by decide)

lemma mem_gps_df (rows : List Row) (r : Row) :
    r ∈ gps_df rows ↔ r ∈ rows ∧ gpsKeep r = true := by
  rw [gps_df, List.mem_filter, List.mem_filter, gpsKeep]
  constructor
  · rintro ⟨⟨hr, h1⟩, h2⟩
    exact ⟨hr, by rw [h1, h2]; rfl⟩
  · rintro ⟨hr, h⟩
    simp only [Bool.and_eq_true] at h
    exact ⟨⟨hr, by rw [h.1.1, h.1.2]; rfl⟩, by rw [h.2.1, h.2.2]; rfl⟩

/-- Counterexample to C3 as stated: the surveyor-profile page's map
(`gps_df`, src/surveyor_profile.py lines 79-83) does not plot every row
whose resolved coordinates are both present — a row whose coordinates
come from the fallback pair is excluded there, because that page consults
only the primary pair. -/
theorem gps_df_misses_resolved_row :
    (resolvedLat rowFallbackOnly).isSome = true ∧
    (resolvedLon rowFallbackOnly).isSome = true ∧
    gps_df [rowFallbackOnly] = [] ∧
    map_df [rowFallbackOnly] = [rowFallbackOnly] := by decide

/-- C3 (amended): In the combined dashboard, the map plots exactly those
rows of the filtered table whose resolved latitude and longitude are both
present; in the surveyor-profile page, the map instead plots exactly
those rows whose primary coordinate pair is fully present with neither
coordinate equal to 0. -/
theorem map_df_plots_resolved_rows (rows : List Row) (r : Row) :
    (r ∈ map_df rows ↔
      r ∈ rows ∧ (resolvedLat r).isSome ∧ (resolvedLon r).isSome) ∧
    (r ∈ gps_df rows ↔
      r ∈ rows ∧ r.g1lat.isSome ∧ r.g1lon.isSome ∧
        cellIsZero r.g1lat = false ∧ cellIsZero r.g1lon = false) := by
  constructor
  · rw [map_df, List.mem_filter, mapKeep]
    simp [Bool.and_eq_true]
  · rw [mem_gps_df, gpsKeep]
    simp only [Bool.and_eq_true, Bool.not_eq_true']
    tauto

/-- C10: In the surveyor-profile page, a row whose primary latitude or
primary longitude equals 0 is excluded from the map even when both
coordinates are present, and only the primary coordinate pair (never the
fallback pair) is consulted for plotting. -/
theorem gps_df_zero_excluded_primary_only (rows : List Row) (r : Row) :
    ((cellIsZero r.g1lat = true ∨ cellIsZero r.g1lon = true) →
      r ∉ gps_df rows) ∧
    (r ∈ gps_df rows ↔ r ∈ rows ∧ r.g1lat.isSome ∧ r.g1lon.isSome ∧
      cellIsZero r.g1lat = false ∧ cellIsZero r.g1lon = false) ∧
    (∀ r2 : Row, r2.g1lat = r.g1lat → r2.g1lon = r.g1lon →
      gpsKeep r2 = gpsKeep r) := by
  refine ⟨?_, (map_df_plots_resolved_rows rows r).2, ?_⟩
  · intro hz hmem
    rw [(map_df_plots_resolved_rows rows r).2] at hmem
    rcases hz with h | h
    · rw [hmem.2.2.2.1] at h; cases h
    · rw [hmem.2.2.2.2] at h; cases h
  · intro r2 h1 h2
    rw [gpsKeep, gpsKeep, h1, h2]

/-- Witness for C10: the zero-latitude row is dropped from the profile map. -/
theorem gps_df_zero_excluded_primary_only_witness :
    rowZeroLat ∉ gps_df [rowZeroLat] :=
  (gps_df_zero_excluded_primary_only [rowZeroLat] rowZeroLat).1
    (Or.inl (by decide))

/-- C2: the claim fails on the surveyor-profile page.  Its breakdown
renames flag 0 to "Verified through Beneficiary" but then reindexes on
the label "Verified by Respondent", so the zero-flag category is always
reported with count 0 even when the filtered set contains rows with flag
0: for the one-row filtered set `[0]` the page's chart shows 0 in both
categories although `countVal [0] 0 = 1`.  The combined dashboard's
`verif_counts` applied to the same set does report the count. -/
theorem verified_counts_drops_zero_count :
    countVal [0] 0 = 1 ∧
    verified_counts [0] =
      [("Externally Verified", 0), ("Verified by Respondent", 0)] ∧
    verif_counts [0] = [(0, 1), (1, 0)] := by decide

lemma rawVerifiedSum_go (flags : List Int) (a : ℚ) :
    (flags.map intCell).foldl rawSumStep (Except.ok a)
      = Except.ok (a + (flags.sum : ℚ)) := by
  induction flags generalizing a with
  | nil => simp
  | cons n t ih =>
      simp only [List.map_cons, List.foldl_cons, intCell, rawSumStep,
        List.sum_cons, ih]
      push_cast
      ring_nf

/-- Summing a column that holds only numbers never fails. -/
lemma rawVerifiedSum_nums (flags : List Int) :
    rawVerifiedSum (flags.map intCell) =
      Except.ok ((verifiedSum flags : Int) : ℚ) := by
  rw [rawVerifiedSum, rawVerifiedSum_go, verifiedSum]
  norm_num

/-- Counterexample to C9 as stated: the surveyor-profile page sums the
`external_verification` column without any normalization
(src/surveyor_profile.py line 28), so a non-numeric flag value makes the
verified-sum computation fail, while the combined dashboard's normalized
pipeline coerces the same cell to 0 and succeeds. -/
theorem rawVerifiedSum_fails_on_string :
    rawVerifiedSum [some (Val.num 1), some (Val.str "yes")] =
      Except.error "TypeError" ∧
    verifiedSum (normalizeFlagCol [some (Val.num 1), some (Val.str "yes")]) = 1 :=
  ⟨rfl, rfl⟩

/-- C9 (amended): In the combined dashboard, after ingestion and
normalization the verification flag of every row is an integer: a
missing or unparseable cell becomes 0 (no error is raised), and summing
the normalized column can never fail; the surveyor-profile page instead
uses the raw column, without coercion. -/
theorem normalizeFlag_coercion_spec (cells : List Cell) :
    normalizeFlag none = 0 ∧
    (∀ c : Cell, parseNumeric c = none → normalizeFlag c = 0) ∧
    (normalizeFlagCol cells).length = cells.length ∧
    rawVerifiedSum ((normalizeFlagCol cells).map intCell) =
      Except.ok ((verifiedSum (normalizeFlagCol cells) : Int) : ℚ) := by
  refine ⟨rfl, ?_, ?_, rawVerifiedSum_nums _⟩
  · intro c hc
    rw [normalizeFlag, hc]
  · rw [normalizeFlagCol, List.length_map]

/-- Witness for C9 (amended): the unparseable flag "abc" is coerced to 0. -/
theorem normalizeFlag_coercion_spec_witness :
    normalizeFlag (some (Val.str "abc")) = 0 :=
  (normalizeFlag_coercion_spec []).2.1 (some (Val.str "abc")) (by decide)

lemma foldl_ensureCol_spec (L : List String) (d : DF) :
    ∃ extra : List String,
      (L.foldl ensureCol d).cols = d.cols ++ extra ∧
      (∀ c, c ∈ extra → c ∉ d.cols) ∧
      (∀ c, c ∈ L → c ∈ d.cols ++ extra) ∧
      (L.foldl ensureCol d).rows =
        d.rows.map (fun r => r ++ extra.map (fun c => (c, (none : Cell)))) := by
  induction L generalizing d with
  | nil =>
      refine ⟨[], by simp, by simp, by simp, ?_⟩
      simp
  | cons c0 L ih =>
      rw [List.foldl_cons]
      by_cases h : c0 ∈ d.cols
      · have hstep : ensureCol d c0 = d := by rw [ensureCol, if_pos h]
        rw [hstep]
        obtain ⟨extra, h1, h2, h3, h4⟩ := ih d
        refine ⟨extra, h1, h2, ?_, h4⟩
        intro c hc
        rcases List.mem_cons.mp hc with rfl | hc
        · exact List.mem_append.mpr (Or.inl h)
        · exact h3 c hc
      · have hstep : ensureCol d c0 =
            ⟨d.cols ++ [c0], d.rows.map (fun r => r ++ [(c0, (none : Cell))])⟩ := by
          rw [ensureCol, if_neg h]
        rw [hstep]
        obtain ⟨extra, h1, h2, h3, h4⟩ :=
          ih ⟨d.cols ++ [c0], d.rows.map (fun r => r ++ [(c0, (none : Cell))])⟩
        refine ⟨c0 :: extra, ?_, ?_, ?_, ?_⟩
        · rw [h1]
          simp
        · intro c hc
          rcases List.mem_cons.mp hc with rfl | hc
          · exact h
          · intro hcd
            exact h2 c hc (by simp [hcd])
        · intro c hc
          rcases List.mem_cons.mp hc with rfl | hc
          · simp
          · have := h3 c hc
            simp only [List.append_assoc, List.singleton_append] at this ⊢
            simpa using this
        · rw [h4]
          simp [Function.comp, List.append_assoc]

lemma find?_map_none_cell (cs : List String) (c : String) (h : c ∈ cs) :
    (cs.map (fun x => (x, (none : Cell)))).find? (fun p => p.1 == c) =
      some (c, (none : Cell)) := by
  induction cs with
  | nil => cases h
  | cons x t ih =>
      by_cases hx : x = c
      · subst hx
        simp [List.find?_cons]
      · rcases List.mem_cons.mp h with rfl | ht
        · exact absurd rfl hx
        · simpa [List.find?_cons, hx] using ih ht

lemma find?_row_none (r : DFRow) (cols : List String) (c : String)
    (hkeys : r.map Prod.fst = cols) (hc : c ∉ cols) :
    r.find? (fun p => p.1 == c) = none := by
  rw [List.find?_eq_none]
  intro p hp hpc
  apply hc
  rw [← hkeys]
  exact List.mem_map.mpr ⟨p, hp, (beq_iff_eq.mp hpc).symm ▸ rfl⟩

/-- After the alignment loop, a key column missing from a well-formed
source table is bound in every row, to NA. -/
lemma addMissingKeyCols_fills_na (d : DF) (hwf : DFWF d) (c : String)
    (hc : c ∈ KEY_COLUMNS) (hnot : c ∉ d.cols) :
    ∀ r ∈ (addMissingKeyCols d).rows, lookupCell r c = some (none : Cell) := by
  obtain ⟨extra, h1, h2, h3, h4⟩ := foldl_ensureCol_spec KEY_COLUMNS d
  intro r hr
  rw [addMissingKeyCols] at hr
  rw [h4] at hr
  obtain ⟨r0, hr0, rfl⟩ := List.mem_map.mp hr
  have hcx : c ∈ extra := by
    rcases List.mem_append.mp (h3 c hc) with h | h
    · exact absurd h hnot
    · exact h
  rw [lookupCell, List.find?_append,
    find?_row_none r0 d.cols c (hwf r0 hr0) hnot,
    Option.none_or, find?_map_none_cell extra c hcx]
  rfl

lemma mem_cols_addMissingKeyCols (d : DF) (c : String) (hc : c ∈ KEY_COLUMNS) :
    c ∈ (addMissingKeyCols d).cols := by
  obtain ⟨extra, h1, _, h3, _⟩ := foldl_ensureCol_spec KEY_COLUMNS d
  rw [addMissingKeyCols, h1]
  exact h3 c hc

lemma mem_cols_setCol (d : DF) (c c' : String) (v : Cell) (h : c ∈ d.cols) :
    c ∈ (setCol d c' v).cols := by
  rw [setCol]
  split
  · exact h
  · exact List.mem_append.mpr (Or.inl h)

lemma mem_insertCols_left (acc cs : List String) (x : String) (h : x ∈ acc) :
    x ∈ insertCols acc cs := by
  induction cs generalizing acc with
  | nil => exact h
  | cons c t ih =>
      rw [insertCols, List.foldl_cons]
      by_cases hc : c ∈ acc
      · rw [if_pos hc]
        exact ih acc h
      · rw [if_neg hc]
        exact ih _ (List.mem_append.mpr (Or.inl h))

lemma mem_insertCols_right (acc cs : List String) (x : String) (h : x ∈ cs) :
    x ∈ insertCols acc cs := by
  induction cs generalizing acc with
  | nil => cases h
  | cons c t ih =>
      rw [insertCols, List.foldl_cons]
      rcases List.mem_cons.mp h with rfl | ht
      · by_cases hc : x ∈ acc
        · rw [if_pos hc]
          exact mem_insertCols_left acc t x hc
        · rw [if_neg hc]
          exact mem_insertCols_left _ t x (List.mem_append.mpr (Or.inr (by simp)))
      · split
        · exact ih acc ht
        · exact ih _ ht

lemma mem_foldl_insertCols (dfs : List DF) (acc : List String) (x : String)
    (h : x ∈ acc) :
    x ∈ dfs.foldl (fun a d => insertCols a d.cols) acc := by
  induction dfs generalizing acc with
  | nil => exact h
  | cons d t ih => exact ih _ (mem_insertCols_left acc d.cols x h)

lemma mem_foldl_insertCols_of_mem (dfs : List DF) (acc : List String)
    (d : DF) (hd : d ∈ dfs) (c : String) (hc : c ∈ d.cols) :
    c ∈ dfs.foldl (fun a d => insertCols a d.cols) acc := by
  induction dfs generalizing acc with
  | nil => cases hd
  | cons d0 t ih =>
      rw [List.foldl_cons]
      rcases List.mem_cons.mp hd with rfl | ht
      · exact mem_foldl_insertCols t _ c (mem_insertCols_right acc d.cols c hc)
      · exact ih _ ht

lemma mem_unionCols (dfs : List DF) (d : DF) (hd : d ∈ dfs) (c : String)
    (hc : c ∈ d.cols) : c ∈ unionCols dfs :=
  mem_foldl_insertCols_of_mem dfs [] d hd c hc

lemma rows_length_addMissingKeyCols (d : DF) :
    (addMissingKeyCols d).rows.length = d.rows.length := by
  obtain ⟨extra, _, _, _, h4⟩ := foldl_ensureCol_spec KEY_COLUMNS d
  rw [addMissingKeyCols, h4, List.length_map]

lemma rows_length_setCol (d : DF) (c : String) (v : Cell) :
    (setCol d c v).rows.length = d.rows.length := by
  rw [setCol]
  split <;> simp

lemma cols_concatDFs (dfs : List DF) : (concatDFs dfs).cols = unionCols dfs :=
  rfl

lemma rows_length_concatDFs (dfs : List DF) :
    (concatDFs dfs).rows.length = (dfs.map (fun d => d.rows.length)).sum := by
  rw [concatDFs]
  simp only [List.length_flatten, List.map_map]
  congr 1
  refine List.map_congr_left ?_
  intro d _
  simp [Function.comp]

/-- C8: For every multi-file ingestion, each expected column name from
the fixed `KEY_COLUMNS` set is present in the resulting combined table;
any expected column missing from an individual (well-formed) source file
is bound in every row of that file's aligned table to NA — the absent
value, not the "Not provided" display sentinel — before concatenation;
and the concatenation never fails: the combined table carries exactly
the rows of all the files. -/
theorem key_columns_aligned (files : List (String × DF)) (c : String)
    (hc : c ∈ KEY_COLUMNS) :
    c ∈ (load_and_combine files).cols ∧
    (∀ f, f ∈ files → DFWF f.2 → c ∉ f.2.cols →
      ∀ r ∈ (addMissingKeyCols f.2).rows,
        lookupCell r c = some (none : Cell) ∧
        lookupCell r c ≠ some (some (Val.str "Not provided"))) ∧
    (load_and_combine files).rows.length =
      (files.map (fun f => f.2.rows.length)).sum := by
  refine ⟨?_, ?_, ?_⟩
  · rw [load_and_combine]
    by_cases hf : files.isEmpty
    · rw [if_pos hf]
      exact List.mem_append.mpr (Or.inl hc)
    · rw [if_neg hf]
      obtain ⟨f0, fs, rfl⟩ : ∃ f0 fs, files = f0 :: fs := by
        cases files with
        | nil => simp at hf
        | cons a l => exact ⟨a, l, rfl⟩
      rw [cols_concatDFs]
      refine mem_unionCols _
        (setCol (addMissingKeyCols f0.2) "__source_file" (some (Val.str f0.1)))
        ?_ c ?_
      · exact List.mem_map_of_mem _ (List.mem_cons_self f0 fs)
      · exact mem_cols_setCol _ c _ _ (mem_cols_addMissingKeyCols f0.2 c hc)
  · intro f hf hwf hnot r hr
    have h := addMissingKeyCols_fills_na f.2 hwf c hc hnot r hr
    refine ⟨h, ?_⟩
    rw [h]
    intro hcon
    exact Option.noConfusion (Option.some.inj hcon)
  · rw [load_and_combine]
    by_cases hf : files.isEmpty
    · rw [if_pos hf]
      have hnil : files = [] := List.isEmpty_iff.mp hf
      subst hnil
      simp
    · rw [if_neg hf, rows_length_concatDFs]
      have h1 : (files.map (fun f =>
          setCol (addMissingKeyCols f.2) "__source_file"
            (some (Val.str f.1)))).map (fun d => d.rows.length) =
          files.map (fun f => f.2.rows.length) := by
        rw [List.map_map]
        refine List.map_congr_left ?_
        intro f _
        simp only [Function.comp_apply, rows_length_setCol,
          rows_length_addMissingKeyCols]
      rw [h1]

/-- Witness for C8 at the concrete one-file ingestion `filesEx`: the
missing expected column `review_status` is present in the combined
table, bound to NA in the aligned row, and no row is lost. -/
theorem key_columns_aligned_witness :
    "review_status" ∈ (load_and_combine filesEx).cols ∧
    lookupCell alignedRowEx "review_status" = some (none : Cell) ∧
    (load_and_combine filesEx).rows.length = 1 := by
  have h := key_columns_aligned filesEx "review_status" (by decide)
  refine ⟨h.1, ?_, ?_⟩
  · refine (h.2.1 ("a.xlsx", dfEx) (by simp [filesEx]) ?_ (by decide)
      alignedRowEx ?_).1
    · intro r hr
      rw [dfEx, List.mem_singleton] at hr
      subst hr
      rfl
    · decide
  · rw [h.2.2]
    rfl
